import Mathlib

/-
  Shallow embedding of the Recording & Transcription Coordinator of the
  shuddhalekhan push-to-talk dictation application.

  Sources embedded:
    src/app/recorder.py  — AudioRecorder (capture queue, start/stop, callback)
    src/app/model.py     — SpeechToTextModel (async load gate, transcribe)
    src/app/main.py      — SpeechToTextApp (start_recording,
                           stop_and_transcribe_internal and its wrappers)
    src/app/tray.py      — TrayApp.set_recording_state (UI notifier)

  Side effects (prints, tray icon updates, capture-thread starts, engine
  invocations, text injection, key presses) are recorded as an event log.
  Python floats are modelled as exact rationals; int16 samples as integers
  converted by the same division by 32768 the callback performs.  Calls into
  external libraries that the coordinator does not wrap in try/except are
  parameterised by a `World` record saying whether they raise; a raised
  Python exception is an `Outcome.exc` result carrying the state and log at
  the raise point.
-/

namespace Shuddha

/-- SAMPLE_RATE from recorder.py / model.py (16 kHz, required by Whisper). -/
def SAMPLE_RATE : ℕ := 16000

/-- CHUNK_SIZE from recorder.py (samples per driver callback buffer). -/
def CHUNK_SIZE : ℕ := 1024

/-- Observable side effects of the coordinator, in program order. -/
inductive Event where
  | warn (msg : String)
  | error (msg : String)
  | info (msg : String)
  | trayRecording (b : Bool)
  | captureStart
  | engineCall
  | inject (text : String)
  | pressEnter
  | loadThreadStarted
  deriving DecidableEq, Repr

/-- One PCM frame after the callback's int16 → float32 conversion. -/
abbrev Frame := List ℚ

/-- The int16 → normalized-float conversion performed by _audio_callback:
`np.frombuffer(indata, dtype=np.int16).astype(np.float32) / 32768.0`. -/
def pcmFrame (indata : List ℤ) : Frame :=
  indata.map fun (i : ℤ) => (i : ℚ) / 32768

/-- State of AudioRecorder (recorder.py): the `is_recording` flag and the
frame queue.  The Python `queue.Queue` is FIFO: `put` appends at the tail
and the drain loop `while not empty: get()` returns elements in push order,
so the queue is a list ordered oldest-first. -/
structure AudioRecorder where
  is_recording : Bool
  audio_queue : List Frame
  deriving DecidableEq, Repr

/-- AudioRecorder.__init__. -/
def AudioRecorder.init : AudioRecorder :=
  { is_recording := false, audio_queue := [] }

/-- AudioRecorder._audio_callback: pushes the converted frame only while
`is_recording` is set; frames arriving after the flag flips are dropped. -/
def AudioRecorder.audio_callback (r : AudioRecorder) (indata : List ℤ) :
    AudioRecorder :=
  if r.is_recording then
    { r with audio_queue := r.audio_queue ++ [pcmFrame indata] }
  else r

/-- AudioRecorder.start_recording: no-op when already recording; otherwise
sets the flag, replaces the queue with a fresh one and launches the capture
thread (recorded as a `captureStart` event). -/
def AudioRecorder.start_recording (r : AudioRecorder) :
    AudioRecorder × List Event :=
  if r.is_recording then (r, [])
  else ({ is_recording := true, audio_queue := [] }, [Event.captureStart])

/-- AudioRecorder.stop_recording: returns `none` when not recording;
otherwise clears the flag, joins the capture thread, drains the whole queue
in arrival order and concatenates (`np.concatenate`); `none` when zero
frames were captured. -/
def AudioRecorder.stop_recording (r : AudioRecorder) :
    AudioRecorder × Option (List ℚ) :=
  if !r.is_recording then (r, none)
  else
    let audio_data := r.audio_queue
    let r2 : AudioRecorder := { is_recording := false, audio_queue := [] }
    if audio_data.isEmpty then (r2, none)
    else (r2, some audio_data.flatten)

/-- State of SpeechToTextModel (model.py): configured language, whether the
pipeline object exists, the `model_loaded` flag, and whether
`_load_model_thread` is non-None. -/
structure SpeechToTextModel where
  language : String
  pipeline : Bool
  model_loaded : Bool
  load_thread : Bool
  deriving DecidableEq, Repr

/-- SpeechToTextModel.__init__. -/
def SpeechToTextModel.init (language : String) : SpeechToTextModel :=
  { language := language, pipeline := false, model_loaded := false,
    load_thread := false }

/-- SpeechToTextModel.load_model_async: returns immediately when
`model_loaded` is already true; otherwise starts a new background load
thread (recorded as a `loadThreadStarted` event) and stores its handle.
Note the source guards only on `model_loaded`, not on a load already being
in flight. -/
def SpeechToTextModel.load_model_async (m : SpeechToTextModel) :
    SpeechToTextModel × List Event :=
  if m.model_loaded then (m, [])
  else ({ m with load_thread := true }, [Event.loadThreadStarted])

/-- Completion of the background `_load` body: on success it installs the
pipeline and then sets `model_loaded := True`; if the load raises, the
thread dies having set neither. -/
def SpeechToTextModel.load_complete (m : SpeechToTextModel) (success : Bool) :
    SpeechToTextModel :=
  if success then { m with pipeline := true, model_loaded := true } else m

/-- SpeechToTextModel.wait_for_model: `false` when no load thread was ever
started; otherwise joins (with timeout) and returns the `model_loaded`
flag. -/
def SpeechToTextModel.wait_for_model (m : SpeechToTextModel) : Bool :=
  if m.load_thread then m.model_loaded else false

/-- SpeechToTextModel.transcribe.  `engine` is the behaviour of the external
Whisper pipeline for this call: `Except.ok text` or `Except.error e` when it
raises.  The source wraps the pipeline call in try/except and maps a raise
to `None`; a `None`/empty array and a not-yet-loaded model short-circuit to
`None` before the pipeline is ever invoked. -/
def SpeechToTextModel.transcribe (m : SpeechToTextModel)
    (engine : Except String String) (audio_array : Option (List ℚ)) :
    List Event × Option String :=
  match audio_array with
  | none => ([], none)
  | some a =>
    if a.length = 0 then ([], none)
    else if !m.model_loaded then ([Event.error "Model not loaded yet"], none)
    else
      match engine with
      | Except.ok t => ([Event.engineCall], some t)
      | Except.error e =>
          ([Event.engineCall, Event.error ("Transcription error: " ++ e)], none)

/-- Operations on the model gate, for stating lifetime invariants. -/
inductive MOp where
  | loadAsync
  | loadComplete (success : Bool)
  deriving DecidableEq, Repr

/-- One gate operation applied to the model state. -/
def mstep (op : MOp) (m : SpeechToTextModel) : SpeechToTextModel :=
  match op with
  | MOp.loadAsync => (m.load_model_async).1
  | MOp.loadComplete s => m.load_complete s

/-- A sequence of gate operations applied in order. -/
def runM (ops : List MOp) (m : SpeechToTextModel) : SpeechToTextModel :=
  ops.foldl (fun m op => mstep op m) m

/-- State of TrayApp (tray.py) as far as the coordinator observes it. -/
structure TrayApp where
  is_recording : Bool
  deriving DecidableEq, Repr

/-- TrayApp.set_recording_state: records the new flag and redraws the icon;
the coordinator observes it as a `trayRecording` notification. -/
def TrayApp.set_recording_state (t : TrayApp) (b : Bool) :
    TrayApp × List Event :=
  ({ t with is_recording := b }, [Event.trayRecording b])

/-- Coordinator state of SpeechToTextApp (main.py): the two shared boolean
flags plus the owned collaborators. -/
structure SpeechToTextApp where
  is_recording : Bool
  model_loaded : Bool
  recorder : AudioRecorder
  model : SpeechToTextModel
  tray_app : TrayApp
  deriving DecidableEq, Repr

/-- Behaviour of the external calls made during one StopAndTranscribe that
the coordinator does not itself guard with try/except: the Whisper pipeline
(whose exceptions ARE caught, inside SpeechToTextModel.transcribe), a
possible raise inside AudioRecorder.stop_recording, and a possible raise of
the pynput Enter keypress performed directly in main.py. -/
structure World where
  engine : Except String String
  stopExc : Option String
  enterExc : Option String
  deriving Repr

/-- Result of one coordinator method call: a normal return, or a Python
exception propagating out of the call, each carrying the coordinator state
and the event log at that point. -/
inductive Outcome where
  | ret (app : SpeechToTextApp) (events : List Event)
  | exc (msg : String) (app : SpeechToTextApp) (events : List Event)
  deriving DecidableEq, Repr

/-- The coordinator state an outcome leaves behind. -/
def Outcome.app : Outcome → SpeechToTextApp
  | Outcome.ret a _ => a
  | Outcome.exc _ a _ => a

/-- The event log of an outcome. -/
def Outcome.events : Outcome → List Event
  | Outcome.ret _ e => e
  | Outcome.exc _ _ e => e

/-- Whether the call ended with an exception escaping it. -/
def Outcome.raised : Outcome → Bool
  | Outcome.ret _ _ => false
  | Outcome.exc _ _ _ => true

/-- SpeechToTextApp.start_recording (main.py lines 57–74): refuse while the
model gate is not loaded, warn when already recording, otherwise set the
flag, start capture and notify the tray. -/
def SpeechToTextApp.start_recording (app : SpeechToTextApp) :
    SpeechToTextApp × List Event :=
  if !app.model_loaded then
    (app, [Event.warn "Model still loading, please wait a few seconds..."])
  else if app.is_recording then
    (app, [Event.warn "Already recording"])
  else
    let app1 := { app with is_recording := true }
    let startRes := app1.recorder.start_recording
    let trayRes := app1.tray_app.set_recording_state true
    ({ app1 with recorder := startRes.1, tray_app := trayRes.1 },
      startRes.2 ++ trayRes.2 ++ [Event.info "Recording audio..."])

/-- SpeechToTextApp.stop_recording (StopOnly, main.py lines 76–85). -/
def SpeechToTextApp.stop_recording (app : SpeechToTextApp) :
    SpeechToTextApp × Option (List ℚ) × List Event :=
  if !app.is_recording then
    (app, none, [Event.warn "Not recording"])
  else
    let app1 := { app with is_recording := false }
    let stopRes := app1.recorder.stop_recording
    let trayRes := app1.tray_app.set_recording_state false
    ({ app1 with recorder := stopRes.1, tray_app := trayRes.1 },
      stopRes.2, trayRes.2)

/-- The duration computation of main.py line 107:
`duration = len(audio) / SAMPLE_RATE`. -/
def audioDuration (audio : List ℚ) : ℚ :=
  (audio.length : ℚ) / (SAMPLE_RATE : ℚ)

/-- Python `str.strip()`: drop whitespace from both ends.  Used to model the
`if text and text.strip():` truthiness test of main.py line 116 (the Python
test is truthy exactly when the stripped text is non-empty, since an empty
`text` also strips to empty). -/
def pyStrip (s : String) : String :=
  ⟨((s.data.dropWhile Char.isWhitespace).reverse.dropWhile
      Char.isWhitespace).reverse⟩

/-- SpeechToTextApp._stop_and_transcribe_internal (main.py lines 87–139).
The source installs no try/except of its own, so a raise at either
unguarded site (`w.stopExc` inside recorder.stop_recording, `w.enterExc` at
the pynput Enter press) propagates as an `Outcome.exc`; a `stopExc` raise
is modelled after the recorder has cleared its flag. -/
def SpeechToTextApp.stop_and_transcribe_internal (app : SpeechToTextApp)
    (w : World) (add_newline : Bool) : Outcome :=
  if !app.is_recording then
    Outcome.ret app [Event.warn "Not recording"]
  else
    let app1 := { app with is_recording := false }
    let trayRes := app1.tray_app.set_recording_state false
    let app2 := { app1 with tray_app := trayRes.1 }
    let ev0 := trayRes.2 ++ [Event.info "Transcribing..."]
    match w.stopExc with
    | some e =>
        Outcome.exc e
          { app2 with recorder := { app2.recorder with is_recording := false } }
          ev0
    | none =>
      let stopRes := app2.recorder.stop_recording
      let app3 := { app2 with recorder := stopRes.1 }
      match stopRes.2 with
      | none => Outcome.ret app3 (ev0 ++ [Event.error "No audio captured"])
      | some audio =>
        if audioDuration audio < 3 / 10 then
          Outcome.ret app3 (ev0 ++ [Event.warn "Recording too short (min 0.3s)"])
        else
          let trRes := app3.model.transcribe w.engine (some audio)
          let ev1 := ev0 ++ trRes.1
          match trRes.2 with
          | none =>
              Outcome.ret app3 (ev1 ++ [Event.error "Transcription failed or empty"])
          | some t =>
            if pyStrip t = "" then
              Outcome.ret app3 (ev1 ++ [Event.error "Transcription failed or empty"])
            else
              let ev2 := ev1 ++ [Event.info ("OUTPUT " ++ t), Event.inject t]
              if add_newline then
                match w.enterExc with
                | some e => Outcome.exc e app3 ev2
                | none =>
                    Outcome.ret app3
                      (ev2 ++ [Event.pressEnter,
                        Event.info "Text injected into active window"])
              else
                Outcome.ret app3
                  (ev2 ++ [Event.info "Text injected into active field"])

/-- SpeechToTextApp.stop_and_transcribe (hotkey path with automatic Enter). -/
def SpeechToTextApp.stop_and_transcribe (app : SpeechToTextApp) (w : World) :
    Outcome :=
  app.stop_and_transcribe_internal w true

/-- SpeechToTextApp.stop_and_send (hotkey path without automatic Enter). -/
def SpeechToTextApp.stop_and_send (app : SpeechToTextApp) (w : World) :
    Outcome :=
  app.stop_and_transcribe_internal w false

/-! ### Concrete states and external behaviours used to exercise claims -/

/-- A gate whose background load has completed successfully. -/
def modelReady : SpeechToTextModel :=
  { language := "auto", pipeline := true, model_loaded := true,
    load_thread := true }

/-- External world in which every call succeeds and the engine returns
"hello world". -/
def wOk : World :=
  { engine := Except.ok "hello world", stopExc := none, enterExc := none }

/-- External world in which the recognition engine raises. -/
def wEngineFails : World :=
  { engine := Except.error "CUDA out of memory", stopExc := none,
    enterExc := none }

/-- External world in which the pynput Enter keypress of main.py line 127
raises. -/
def wEnterRaises : World :=
  { engine := Except.ok "hello world", stopExc := none,
    enterExc := some "pynput press failed" }

/-- A coordinator mid-recording whose queue holds one frame of `n` zero
samples. -/
def appWith (n : ℕ) : SpeechToTextApp :=
  { is_recording := true, model_loaded := true,
    recorder := { is_recording := true,
                  audio_queue := [List.replicate n 0] },
    model := modelReady, tray_app := { is_recording := true } }

/-- An idle coordinator whose model gate has finished loading. -/
def appReady : SpeechToTextApp :=
  { is_recording := false, model_loaded := true,
    recorder := AudioRecorder.init, model := modelReady,
    tray_app := { is_recording := false } }

/-- An idle coordinator whose model gate is still loading. -/
def appLoading : SpeechToTextApp :=
  { is_recording := false, model_loaded := false,
    recorder := AudioRecorder.init,
    model := { SpeechToTextModel.init "auto" with load_thread := true },
    tray_app := { is_recording := false } }

/-- One driver callback buffer of CHUNK_SIZE silent int16 samples. -/
def rawChunk : List ℤ := List.replicate CHUNK_SIZE 0

/-- The end-to-end scenario of the spec: start recording on a ready
coordinator, let the driver deliver 50 chunks of 1024 samples (≈ 3.2 s at
16 kHz), then StopAndTranscribe with newline while the engine returns
"hello world".  The result pairs the final coordinator state with the
event log of the whole cycle. -/
def cycleC10 : SpeechToTextApp × List Event :=
  let s1 := appReady.start_recording
  let rec1 := (List.replicate 50 rawChunk).foldl AudioRecorder.audio_callback
    s1.1.recorder
  let s2 : SpeechToTextApp := { s1.1 with recorder := rec1 }
  let out := s2.stop_and_transcribe_internal wOk true
  (out.app, s1.2 ++ out.events)

/-! ### Helper lemmas -/

/-- Folding the driver callback over a frame sequence while recording
appends exactly the converted frames, in arrival order. -/
theorem foldl_audio_callback (ds : List (List ℤ)) :
    ∀ (r : AudioRecorder), r.is_recording = true →
      ds.foldl AudioRecorder.audio_callback r =
        { is_recording := true,
          audio_queue := r.audio_queue ++ ds.map pcmFrame } := by
  induction ds with
  | nil => intro r h; cases r; simp_all
  | cons d rest ih =>
      intro r h
      simp only [List.foldl_cons, AudioRecorder.audio_callback, h, if_true]
      rw [ih _ rfl]
      simp

/-! ### Claims -/

/-- Claim C1: for every starting state, every external behaviour (no audio,
too-short audio, gate not loaded, empty result, or an exception from any
step) and either newline flag, a StopAndTranscribe call leaves the
coordinator with `is_recording = false` (Idle) when it finishes. -/
theorem C1_stop_and_transcribe_leaves_idle
    (app : SpeechToTextApp) (w : World) (nl : Bool) :
    ((app.stop_and_transcribe_internal w nl).app).is_recording = false := by
  by_cases h : app.is_recording
  · simp only [SpeechToTextApp.stop_and_transcribe_internal, h, Bool.not_true,
      Bool.false_eq_true, if_false]
    repeat' split
    all_goals simp [Outcome.app]
  · simp [SpeechToTextApp.stop_and_transcribe_internal, h, Outcome.app]

/-- Claim C2: whenever the coordinator is not Idle (`is_recording = true`),
StartRecording is a no-op reported as a warning: the state (including the
capture session) is unchanged, no second capture is started, and only
warnings are emitted. -/
theorem C2_start_recording_noop_when_not_idle
    (app : SpeechToTextApp) (h : app.is_recording = true) :
    (app.start_recording).1 = app ∧
    Event.captureStart ∉ (app.start_recording).2 ∧
    ∀ e ∈ (app.start_recording).2, ∃ msg, e = Event.warn msg := by
  by_cases hm : app.model_loaded
  · simp [SpeechToTextApp.start_recording, hm, h]
  · simp [SpeechToTextApp.start_recording, hm]

/-- Witness for C2 at a concrete recording coordinator. -/
theorem C2_start_recording_noop_when_not_idle_witness :
    ((appWith 4800).start_recording).1 = appWith 4800 ∧
    Event.captureStart ∉ ((appWith 4800).start_recording).2 ∧
    ∀ e ∈ ((appWith 4800).start_recording).2, ∃ msg, e = Event.warn msg :=
  C2_start_recording_noop_when_not_idle (appWith 4800) rfl

/-- Claim C5: whenever the model gate is not loaded, StartRecording is
refused with the "model still loading" report, performs no
AudioCapture.start() call and leaves the whole coordinator state
unchanged. -/
theorem C5_start_refused_while_model_loading
    (app : SpeechToTextApp) (h : app.model_loaded = false) :
    (app.start_recording).1 = app ∧
    Event.captureStart ∉ (app.start_recording).2 ∧
    (app.start_recording).2 =
      [Event.warn "Model still loading, please wait a few seconds..."] := by
  simp [SpeechToTextApp.start_recording, h]

/-- Witness for C5 at a concrete idle coordinator with the gate still
loading. -/
theorem C5_start_refused_while_model_loading_witness :
    (appLoading.start_recording).1 = appLoading ∧
    Event.captureStart ∉ (appLoading.start_recording).2 ∧
    (appLoading.start_recording).2 =
      [Event.warn "Model still loading, please wait a few seconds..."] :=
  C5_start_refused_while_model_loading appLoading rfl

/-- Claim C6: for every sequence of frames delivered by the driver during
one recording period, the single drain performed by stop returns their
concatenation in exact arrival order — no frame lost, duplicated or
reordered (and `none` exactly when no frame arrived). -/
theorem C6_drain_preserves_push_order (ds : List (List ℤ)) :
    (((ds.foldl AudioRecorder.audio_callback
        (AudioRecorder.init.start_recording).1)).stop_recording).2 =
      if ds.isEmpty then none else some (ds.map pcmFrame).flatten := by
  have h1 : (AudioRecorder.init.start_recording).1 =
      { is_recording := true, audio_queue := [] } := rfl
  rw [h1, foldl_audio_callback ds _ rfl]
  cases ds <;> simp [AudioRecorder.stop_recording]

/-- A gate step never clears an already-set loaded flag. -/
theorem mstep_preserves_loaded (op : MOp) (m : SpeechToTextModel)
    (h : m.model_loaded = true) : (mstep op m).model_loaded = true := by
  cases op with
  | loadAsync => simp [mstep, SpeechToTextModel.load_model_async, h]
  | loadComplete s =>
      cases s <;> simp [mstep, SpeechToTextModel.load_complete, h]

/-- No gate step other than a successful load completion can set the loaded
flag. -/
theorem mstep_preserves_unloaded (op : MOp) (m : SpeechToTextModel)
    (hop : op ≠ MOp.loadComplete true) (h : m.model_loaded = false) :
    (mstep op m).model_loaded = false := by
  cases op with
  | loadAsync =>
      simp [mstep, SpeechToTextModel.load_model_async, h]
  | loadComplete s =>
      cases s with
      | false => simp [mstep, SpeechToTextModel.load_complete, h]
      | true => exact absurd rfl hop

/-- Claim C8: the loaded flag never reverts (so it transitions false→true
at most once under any operation sequence); and after a load whose thread
raised — any sequence containing no successful load completion — the gate
stays not-ready and wait_for_model returns false. -/
theorem C8_gate_monotone_and_failure_sticky :
    (∀ (m : SpeechToTextModel) (ops : List MOp), m.model_loaded = true →
        (runM ops m).model_loaded = true) ∧
    (∀ (m : SpeechToTextModel) (ops : List MOp), m.model_loaded = false →
        (∀ op ∈ ops, op ≠ MOp.loadComplete true) →
        (runM ops m).model_loaded = false ∧
        (runM ops m).wait_for_model = false) := by
  constructor
  · intro m ops
    induction ops generalizing m with
    | nil => intro h; exact h
    | cons op rest ih =>
        intro h
        exact ih _ (mstep_preserves_loaded op m h)
  · intro m ops
    have key : ∀ (mm : SpeechToTextModel), mm.model_loaded = false →
        (∀ op ∈ ops, op ≠ MOp.loadComplete true) →
        (runM ops mm).model_loaded = false := by
      induction ops with
      | nil => intro mm h _; exact h
      | cons op rest ih =>
          intro mm h hops
          exact ih _ (mstep_preserves_unloaded op mm (hops op (by simp)) h)
            (fun o ho => hops o (by simp [ho]))
    intro h hops
    refine ⟨key m h hops, ?_⟩
    have hl := key m h hops
    simp [SpeechToTextModel.wait_for_model, hl]

/-- Witness for C8: a loaded gate stays loaded across further operations,
and a fresh gate whose only load raises ends not-ready with
wait_for_model false. -/
theorem C8_gate_monotone_and_failure_sticky_witness :
    ((runM [MOp.loadAsync, MOp.loadComplete true] modelReady).model_loaded
        = true) ∧
    ((runM [MOp.loadAsync, MOp.loadComplete false]
        (SpeechToTextModel.init "auto")).model_loaded = false ∧
      (runM [MOp.loadAsync, MOp.loadComplete false]
        (SpeechToTextModel.init "auto")).wait_for_model = false) :=
  ⟨C8_gate_monotone_and_failure_sticky.1 modelReady
      [MOp.loadAsync, MOp.loadComplete true] rfl,
   C8_gate_monotone_and_failure_sticky.2 (SpeechToTextModel.init "auto")
      [MOp.loadAsync, MOp.loadComplete false] rfl (by decide)⟩

/-- Counterexample to claim C7: on a fresh gate, a second load_model_async
issued while the first load is still in progress (model_loaded still false)
starts a second background load thread — two launches, not one. -/
theorem C7_counterexample_second_load_thread_started :
    (((SpeechToTextModel.init "auto").load_model_async).2 ++
        ((((SpeechToTextModel.init "auto").load_model_async).1).load_model_async).2).count
      Event.loadThreadStarted = 2 := by decide

/-- Claim C7 (amended): load_model_async is a no-op — starting no
additional load — only once the model has finished loading; the source
guards solely on model_loaded. -/
theorem C7_load_async_noop_after_loaded (m : SpeechToTextModel)
    (h : m.model_loaded = true) :
    m.load_model_async = (m, []) := by
  simp [SpeechToTextModel.load_model_async, h]

/-- Witness for the amended C7 at a loaded gate. -/
theorem C7_load_async_noop_after_loaded_witness :
    modelReady.load_model_async = (modelReady, []) :=
  C7_load_async_noop_after_loaded modelReady rfl

/-- Claim C4: at 16 kHz a 4800-sample capture (exactly 0.3 s) passes the
duration check and reaches the recognition engine, while a 4640-sample
capture (0.29 s) is rejected with the "too short" warning and the engine
is never invoked. -/
theorem C4_duration_boundary :
    Event.engineCall ∈
      ((appWith 4800).stop_and_transcribe_internal wOk true).events ∧
    Event.engineCall ∉
      ((appWith 4640).stop_and_transcribe_internal wOk true).events ∧
    Event.warn "Recording too short (min 0.3s)" ∈
      ((appWith 4640).stop_and_transcribe_internal wOk true).events := by
  have key1 : ∀ (a : List ℚ), a.length = 4800 →
      Event.engineCall ∈
        (({ is_recording := true, model_loaded := true,
            recorder := { is_recording := true, audio_queue := [a] },
            model := modelReady, tray_app := { is_recording := true } } :
              SpeechToTextApp).stop_and_transcribe_internal wOk true).events := by
    intro a ha
    have hdur : ¬ (audioDuration a < 3 / 10) := by
      unfold audioDuration SAMPLE_RATE
      rw [ha]
      norm_num
    have hlen0 : ¬ (a.length = 0) := by omega
    have hstrip : ¬ (pyStrip "hello world" = "") := by decide
    simp [SpeechToTextApp.stop_and_transcribe_internal, wOk, modelReady,
      AudioRecorder.stop_recording, TrayApp.set_recording_state,
      SpeechToTextModel.transcribe, Outcome.events, hdur, hlen0, hstrip]
  have key2 : ∀ (a : List ℚ), a.length = 4640 →
      (({ is_recording := true, model_loaded := true,
          recorder := { is_recording := true, audio_queue := [a] },
          model := modelReady, tray_app := { is_recording := true } } :
            SpeechToTextApp).stop_and_transcribe_internal wOk true).events =
        [Event.trayRecording false, Event.info "Transcribing...",
         Event.warn "Recording too short (min 0.3s)"] := by
    intro a ha
    have hdur : audioDuration a < 3 / 10 := by
      unfold audioDuration SAMPLE_RATE
      rw [ha]
      norm_num
    simp [SpeechToTextApp.stop_and_transcribe_internal, wOk, modelReady,
      AudioRecorder.stop_recording, TrayApp.set_recording_state,
      Outcome.events, hdur]
  refine ⟨?_, ?_, ?_⟩
  · have h := key1 (List.replicate 4800 0) (by rw [List.length_replicate])
    simpa only [appWith] using h
  · have h := key2 (List.replicate 4640 0) (by rw [List.length_replicate])
    simp only [appWith]
    rw [h]
    decide
  · have h := key2 (List.replicate 4640 0) (by rw [List.length_replicate])
    simp only [appWith]
    rw [h]
    decide

/-- Counterexample to claim C3: the coordinator installs no exception
handler, so when the pynput Enter keypress of step 6 raises during a
stop-and-transcribe on a 0.3 s capture with a successful engine result,
the exception propagates out of the StopAndTranscribe call. -/
theorem C3_counterexample_enter_press_exception_escapes :
    ((appWith 4800).stop_and_transcribe wEnterRaises).raised = true := by
  have key : ∀ (a : List ℚ), a.length = 4800 →
      (({ is_recording := true, model_loaded := true,
          recorder := { is_recording := true, audio_queue := [a] },
          model := modelReady, tray_app := { is_recording := true } } :
            SpeechToTextApp).stop_and_transcribe_internal
              wEnterRaises true).raised = true := by
    intro a ha
    have hdur : ¬ (audioDuration a < 3 / 10) := by
      unfold audioDuration SAMPLE_RATE
      rw [ha]
      norm_num
    have hlen0 : ¬ (a.length = 0) := by omega
    have hstrip : ¬ (pyStrip "hello world" = "") := by decide
    simp [SpeechToTextApp.stop_and_transcribe_internal, wEnterRaises,
      modelReady, AudioRecorder.stop_recording, TrayApp.set_recording_state,
      SpeechToTextModel.transcribe, Outcome.raised, hdur, hstrip, hlen0]
  have h := key (List.replicate 4800 0) (by rw [List.length_replicate])
  simpa only [SpeechToTextApp.stop_and_transcribe, appWith] using h

/-- Claim C3 (amended): recognition-engine exceptions are caught inside the
model wrapper, so whenever the two call sites the coordinator leaves
unguarded (stopping capture, the Enter keypress) do not themselves raise,
no exception — in particular no engine exception — propagates out of a
StopAndTranscribe call, from any starting state. -/
theorem C3_engine_exception_never_escapes (app : SpeechToTextApp)
    (w : World) (nl : Bool)
    (h1 : w.stopExc = none) (h2 : w.enterExc = none) :
    (app.stop_and_transcribe_internal w nl).raised = false := by
  by_cases h : app.is_recording
  · simp only [SpeechToTextApp.stop_and_transcribe_internal, h, Bool.not_true,
      Bool.false_eq_true, if_false, h1, h2]
    repeat' split
    all_goals simp [Outcome.raised]
  · simp [SpeechToTextApp.stop_and_transcribe_internal, h, Outcome.raised]

/-- Witness for the amended C3: a raising engine on a 0.3 s capture does
not make the call raise. -/
theorem C3_engine_exception_never_escapes_witness :
    ((appWith 4800).stop_and_transcribe_internal wEngineFails true).raised
      = false :=
  C3_engine_exception_never_escapes (appWith 4800) wEngineFails true rfl rfl

/-- Claim C9: when the recognition engine raises during a StopAndTranscribe
on a valid (≥ 0.3 s) capture with the gate loaded, the call returns
normally, reports the failure, ends Idle, and neither injects text nor
presses Enter. -/
theorem C9_engine_exception_no_injection
    (app : SpeechToTextApp) (w : World) (msg : String) (nl : Bool)
    (h1 : app.is_recording = true)
    (h2 : app.recorder.is_recording = true)
    (h3 : 4800 ≤ app.recorder.audio_queue.flatten.length)
    (h4 : app.model.model_loaded = true)
    (h5 : w.engine = Except.error msg)
    (h6 : w.stopExc = none) :
    ∃ a evs, app.stop_and_transcribe_internal w nl = Outcome.ret a evs ∧
      a.is_recording = false ∧
      Event.error "Transcription failed or empty" ∈ evs ∧
      (∀ t, Event.inject t ∉ evs) ∧
      Event.pressEnter ∉ evs := by
  rcases app with ⟨ir, ml, ⟨rir, rq⟩, mdl, ⟨tr⟩⟩
  rcases w with ⟨eng, sexc, eexc⟩
  simp only at h1 h2 h3 h4 h5 h6
  subst h1 h2 h5 h6
  have hdur : ¬ (audioDuration rq.flatten < 3 / 10) := by
    unfold audioDuration SAMPLE_RATE
    rw [not_lt]
    have h3q : (4800 : ℚ) ≤ rq.flatten.length := by exact_mod_cast h3
    have h16 : ((16000 : ℕ) : ℚ) = 16000 := by norm_num
    rw [h16, le_div_iff₀ (by norm_num : (0 : ℚ) < 16000)]
    linarith
  have hlen0 : ¬ (rq.flatten.length = 0) := by omega
  simp only [List.length_flatten] at hlen0
  have hie : rq.isEmpty = false := by
    cases rq with
    | nil => simp at h3
    | cons f rest => rfl
  have heval :
      SpeechToTextApp.stop_and_transcribe_internal
        { is_recording := true, model_loaded := ml,
          recorder := { is_recording := true, audio_queue := rq },
          model := mdl, tray_app := { is_recording := tr } }
        { engine := Except.error msg, stopExc := none, enterExc := eexc }
        nl =
      Outcome.ret
        { is_recording := false, model_loaded := ml,
          recorder := { is_recording := false, audio_queue := [] },
          model := mdl, tray_app := { is_recording := false } }
        [Event.trayRecording false, Event.info "Transcribing...",
         Event.engineCall, Event.error ("Transcription error: " ++ msg),
         Event.error "Transcription failed or empty"] := by
    simp [SpeechToTextApp.stop_and_transcribe_internal,
      AudioRecorder.stop_recording, TrayApp.set_recording_state,
      SpeechToTextModel.transcribe, hie, hdur, hlen0, h4]
  refine ⟨_, _, heval, rfl, ?_, ?_, ?_⟩
  · simp
  · intro t; simp
  · simp

/-- Witness for C9 at a concrete recording coordinator with a 0.3 s capture
and a raising engine. -/
theorem C9_engine_exception_no_injection_witness :
    ∃ a evs, (appWith 4800).stop_and_transcribe_internal wEngineFails true
        = Outcome.ret a evs ∧
      a.is_recording = false ∧
      Event.error "Transcription failed or empty" ∈ evs ∧
      (∀ t, Event.inject t ∉ evs) ∧
      Event.pressEnter ∉ evs :=
  C9_engine_exception_no_injection (appWith 4800) wEngineFails
    "CUDA out of memory" true rfl rfl
    (by
      have h : (appWith 4800).recorder.audio_queue.flatten.length = 4800 := by
        rw [show (appWith 4800).recorder.audio_queue
              = [List.replicate 4800 (0 : ℚ)] from rfl,
          List.flatten_cons, List.flatten_nil, List.append_nil,
          List.length_replicate]
      omega)
    rfl rfl rfl

/-- Full evaluation of the end-to-end success scenario. -/
theorem cycleC10_eval :
    cycleC10 =
      ({ is_recording := false, model_loaded := true,
         recorder := { is_recording := false, audio_queue := [] },
         model := modelReady, tray_app := { is_recording := false } },
       [Event.captureStart, Event.trayRecording true,
        Event.info "Recording audio...", Event.trayRecording false,
        Event.info "Transcribing...", Event.engineCall,
        Event.info "OUTPUT hello world", Event.inject "hello world",
        Event.pressEnter, Event.info "Text injected into active window"]) := by
  have hstart : appReady.start_recording =
      ({ is_recording := true, model_loaded := true,
         recorder := { is_recording := true, audio_queue := [] },
         model := modelReady, tray_app := { is_recording := true } },
       [Event.captureStart, Event.trayRecording true,
        Event.info "Recording audio..."]) := rfl
  have hframe : pcmFrame rawChunk = List.replicate 1024 (0 : ℚ) := by
    unfold pcmFrame rawChunk CHUNK_SIZE
    rw [List.map_replicate]
    exact congrArg (List.replicate 1024) (by norm_num)
  have hfold : (List.replicate 50 rawChunk).foldl AudioRecorder.audio_callback
      ({ is_recording := true, audio_queue := [] } : AudioRecorder) =
      { is_recording := true,
        audio_queue := List.replicate 50 (List.replicate 1024 (0 : ℚ)) } := by
    rw [foldl_audio_callback _ _ rfl]
    rw [List.map_replicate, hframe, List.nil_append]
  have key : ∀ (q : List Frame), q.isEmpty = false →
      ¬ (audioDuration q.flatten < 3 / 10) → ¬ (q.flatten.length = 0) →
      SpeechToTextApp.stop_and_transcribe_internal
        { is_recording := true, model_loaded := true,
          recorder := { is_recording := true, audio_queue := q },
          model := modelReady, tray_app := { is_recording := true } }
        wOk true =
      Outcome.ret
        { is_recording := false, model_loaded := true,
          recorder := { is_recording := false, audio_queue := [] },
          model := modelReady, tray_app := { is_recording := false } }
        [Event.trayRecording false, Event.info "Transcribing...",
         Event.engineCall, Event.info "OUTPUT hello world",
         Event.inject "hello world", Event.pressEnter,
         Event.info "Text injected into active window"] := by
    intro q hq hdur hlen0
    simp only [List.length_flatten] at hlen0
    have hstrip : ¬ (pyStrip "hello world" = "") := by decide
    simp [SpeechToTextApp.stop_and_transcribe_internal, wOk, modelReady,
      AudioRecorder.stop_recording, TrayApp.set_recording_state,
      SpeechToTextModel.transcribe, hq, hdur, hlen0, hstrip]
  have hq1 : (List.replicate 50 (List.replicate 1024 (0 : ℚ))).isEmpty
      = false := rfl
  have hq2 : ¬ (audioDuration
      (List.replicate 50 (List.replicate 1024 (0 : ℚ))).flatten < 3 / 10) := by
    unfold audioDuration SAMPLE_RATE
    rw [List.length_flatten, List.map_replicate, List.length_replicate,
      List.sum_replicate, smul_eq_mul]
    norm_num
  have hq3 : ¬ ((List.replicate 50
      (List.replicate 1024 (0 : ℚ))).flatten.length = 0) := by
    rw [List.length_flatten, List.map_replicate, List.length_replicate,
      List.sum_replicate, smul_eq_mul]
    norm_num
  simp only [cycleC10, hstart, hfold]
  rw [key _ hq1 hq2 hq3]
  simp [Outcome.app, Outcome.events]

/-- Counterexample to claim C10: in the successful end-to-end cycle the UI
notifier set_recording_state(False) fires, but not twice — the internal
stop path notifies only at entry, never again at stop-capture. -/
theorem C10_counterexample_tray_false_count :
    Event.inject "hello world" ∈ cycleC10.2 ∧
    (cycleC10.2).count (Event.trayRecording false) ≠ 2 := by
  rw [cycleC10_eval]
  decide

/-- Claim C10 (amended): in the successful end-to-end cycle,
set_recording_state(False) is invoked exactly once — at entry of the
StopAndTranscribe call, before transcription begins — so the recording
indicator never lingers during transcription, and the cycle ends Idle
after injecting the text and pressing Enter. -/
theorem C10_tray_false_notified_once :
    (cycleC10.2).count (Event.trayRecording false) = 1 ∧
    Event.inject "hello world" ∈ cycleC10.2 ∧
    Event.pressEnter ∈ cycleC10.2 ∧
    cycleC10.1.is_recording = false := by
  rw [cycleC10_eval]
  decide

end Shuddha
